import Mathlib
set_option maxRecDepth 8000
/-!
Verification of the go-tooling instrumentation library.

The development shallowly embeds the telemetry configuration model
(src/telemetry/options.go), the initializer (telemetry Init), the
error-capture function, the NATS publish wrappers, and the composite
health-check endpoint, and proves the specification claims about them.
Network effects (NATS, MySQL, Sentry, OTLP) are modelled as oracle
functions supplied as parameters; performed calls are recorded in
explicit effect lists.
-/
namespace GoTooling
/-! Configuration model, translated from src/telemetry/options.go.
Go zero values: empty string, 0, false. -/
/-- slogConfig from options.go; Go slog.Level is an integer. -/
structure slogConfig where
  logLevel : Int
deriving DecidableEq
/-- sentryConfig from options.go. -/
structure sentryConfig where
  DSN : String
  Environment : String
  Release : String
deriving DecidableEq
/-- traceConfig from options.go. -/
structure traceConfig where
  ExporterURL : String
deriving DecidableEq
/-- mySQLConfig from options.go. -/
structure mySQLConfig where
  DSN : String
deriving DecidableEq
/-- natsConfig from options.go. -/
structure natsConfig where
  URL : String
deriving DecidableEq
/-- config from options.go (with the Environment field written by the
initializer in the current telemetry package). -/
structure config where
  ServiceName : String
  Environment : String
  MysqlConfig : mySQLConfig
  MysqlEnabled : Bool
  NatsConfig : natsConfig
  NatsEnabled : Bool
  SentryConfig : sentryConfig
  SentryEnabled : Bool
  SlogConfig : slogConfig
  SlogEnabled : Bool
  TraceConfig : traceConfig
  TraceEnabled : Bool
deriving DecidableEq
/-- Zero value of slogConfig. -/
def slogConfig.zero : slogConfig := ⟨0⟩
/-- Zero value of sentryConfig. -/
def sentryConfig.zero : sentryConfig := ⟨"", "", ""⟩
/-- Zero value of traceConfig. -/
def traceConfig.zero : traceConfig := ⟨""⟩
/-- Zero value of mySQLConfig. -/
def mySQLConfig.zero : mySQLConfig := ⟨""⟩
/-- Zero value of natsConfig. -/
def natsConfig.zero : natsConfig := ⟨""⟩
/-- Zero value of config: the empty default settings bundle. -/
def config.zero : config :=
  ⟨"", "", mySQLConfig.zero, false, natsConfig.zero, false,
   sentryConfig.zero, false, slogConfig.zero, false, traceConfig.zero, false⟩
/-- Sub-options of WithSlog (SlogLogLevel in options.go). -/
inductive SlogOption where
  | slogLogLevel (level : Int)
deriving DecidableEq
/-- Sub-options of WithSentry (SentryDSN, SentryEnvironment, SentryRelease). -/
inductive SentryOption where
  | sentryDSN (dsn : String)
  | sentryEnvironment (env : String)
  | sentryRelease (rel : String)
deriving DecidableEq
/-- Sub-options of WithTrace (TraceExporterURL). -/
inductive TraceOption where
  | traceExporterURL (url : String)
deriving DecidableEq
/-- Sub-options of WithMySQL (MySQLDSN). -/
inductive MySQLOption where
  | mySQLDSN (dsn : String)
deriving DecidableEq
/-- Sub-options of WithNATS (NATSURL). -/
inductive NATSOption where
  | natsURL (url : String)
deriving DecidableEq
/-- The Option type of the telemetry package: one constructor per
enable-X option function of options.go, carrying its sub-options. -/
inductive TeleOption where
  | withSlog (opts : List SlogOption)
  | withSentry (opts : List SentryOption)
  | withTrace (opts : List TraceOption)
  | withMySQL (opts : List MySQLOption)
  | withNATS (opts : List NATSOption)
deriving DecidableEq
/-- SlogLogLevel sets the log level (options.go). -/
def applySlogOption (cfg : slogConfig) (o : SlogOption) : slogConfig :=
  match o with
  | .slogLogLevel level => { cfg with logLevel := level }
/-- SentryDSN, SentryEnvironment, SentryRelease each set one field (options.go). -/
def applySentryOption (cfg : sentryConfig) (o : SentryOption) : sentryConfig :=
  match o with
  | .sentryDSN dsn => { cfg with DSN := dsn }
  | .sentryEnvironment env => { cfg with Environment := env }
  | .sentryRelease rel => { cfg with Release := rel }
/-- TraceExporterURL sets the exporter URL (options.go). -/
def applyTraceOption (cfg : traceConfig) (o : TraceOption) : traceConfig :=
  match o with
  | .traceExporterURL url => { cfg with ExporterURL := url }
/-- MySQLDSN sets the DSN (options.go). -/
def applyMySQLOption (cfg : mySQLConfig) (o : MySQLOption) : mySQLConfig :=
  match o with
  | .mySQLDSN dsn => { cfg with DSN := dsn }
/-- NATSURL sets the NATS server URL (options.go). -/
def applyNATSOption (cfg : natsConfig) (o : NATSOption) : natsConfig :=
  match o with
  | .natsURL url => { cfg with URL := url }
/-- Application of one telemetry option to the settings draft: each
WithX sets the enabled flag for X and replaces X's nested settings with
a fresh zero value folded through its sub-options (options.go). -/
def applyOption (cfg : config) (o : TeleOption) : config :=
  match o with
  | .withSlog opts =>
    { cfg with SlogEnabled := true,
               SlogConfig := opts.foldl applySlogOption slogConfig.zero }
  | .withSentry opts =>
    { cfg with SentryEnabled := true,
               SentryConfig := opts.foldl applySentryOption sentryConfig.zero }
  | .withTrace opts =>
    { cfg with TraceEnabled := true,
               TraceConfig := opts.foldl applyTraceOption traceConfig.zero }
  | .withMySQL opts =>
    { cfg with MysqlEnabled := true,
               MysqlConfig := opts.foldl applyMySQLOption mySQLConfig.zero }
  | .withNATS opts =>
    { cfg with NatsEnabled := true,
               NatsConfig := opts.foldl applyNATSOption natsConfig.zero }
/-- Folding a sequence of options over the empty default bundle, in
application order, as the initializer does. -/
def applyOptions (opts : List TeleOption) : config :=
  opts.foldl applyOption config.zero
/-! Last-wins specification for the options model, written from the
spec's words: the value of each field of the settings bundle equals the
value set by the last applied option that sets that field, and equals
the zero value if no option sets it. This is the spec side of the C6
refinement; applyOptions above is the code side. -/
/-- Sub-option list of the last withSlog option, if any. -/
def lastSlogOpts (opts : List TeleOption) : Option (List SlogOption) :=
  opts.foldl (fun acc o => match o with | .withSlog s => some s | _ => acc) none
/-- Sub-option list of the last withSentry option, if any. -/
def lastSentryOpts (opts : List TeleOption) : Option (List SentryOption) :=
  opts.foldl (fun acc o => match o with | .withSentry s => some s | _ => acc) none
/-- Sub-option list of the last withTrace option, if any. -/
def lastTraceOpts (opts : List TeleOption) : Option (List TraceOption) :=
  opts.foldl (fun acc o => match o with | .withTrace s => some s | _ => acc) none
/-- Sub-option list of the last withMySQL option, if any. -/
def lastMySQLOpts (opts : List TeleOption) : Option (List MySQLOption) :=
  opts.foldl (fun acc o => match o with | .withMySQL s => some s | _ => acc) none
/-- Sub-option list of the last withNATS option, if any. -/
def lastNATSOpts (opts : List TeleOption) : Option (List NATSOption) :=
  opts.foldl (fun acc o => match o with | .withNATS s => some s | _ => acc) none
/-- Level set by the last slogLogLevel sub-option, if any. -/
def lastLogLevel (subs : List SlogOption) : Option Int :=
  subs.foldl (fun _ o => match o with | .slogLogLevel l => some l) none
/-- DSN set by the last sentryDSN sub-option, if any. -/
def lastSentryDSN (subs : List SentryOption) : Option String :=
  subs.foldl (fun acc o => match o with | .sentryDSN d => some d | _ => acc) none
/-- Environment set by the last sentryEnvironment sub-option, if any. -/
def lastSentryEnvironment (subs : List SentryOption) : Option String :=
  subs.foldl (fun acc o => match o with | .sentryEnvironment e => some e | _ => acc) none
/-- Release set by the last sentryRelease sub-option, if any. -/
def lastSentryRelease (subs : List SentryOption) : Option String :=
  subs.foldl (fun acc o => match o with | .sentryRelease r => some r | _ => acc) none
/-- Exporter URL set by the last traceExporterURL sub-option, if any. -/
def lastExporterURL (subs : List TraceOption) : Option String :=
  subs.foldl (fun _ o => match o with | .traceExporterURL u => some u) none
/-- DSN set by the last mySQLDSN sub-option, if any. -/
def lastMySQLDSN (subs : List MySQLOption) : Option String :=
  subs.foldl (fun _ o => match o with | .mySQLDSN d => some d) none
/-- URL set by the last natsURL sub-option, if any. -/
def lastNATSURL (subs : List NATSOption) : Option String :=
  subs.foldl (fun _ o => match o with | .natsURL u => some u) none
/-- Last-wins reading of a slog sub-option list. -/
def slogLastWins (subs : List SlogOption) : slogConfig :=
  ⟨(lastLogLevel subs).getD 0⟩
/-- Last-wins reading of a sentry sub-option list. -/
def sentryLastWins (subs : List SentryOption) : sentryConfig :=
  ⟨(lastSentryDSN subs).getD "", (lastSentryEnvironment subs).getD "",
   (lastSentryRelease subs).getD ""⟩
/-- Last-wins reading of a trace sub-option list. -/
def traceLastWins (subs : List TraceOption) : traceConfig :=
  ⟨(lastExporterURL subs).getD ""⟩
/-- Last-wins reading of a MySQL sub-option list. -/
def mySQLLastWins (subs : List MySQLOption) : mySQLConfig :=
  ⟨(lastMySQLDSN subs).getD ""⟩
/-- Last-wins reading of a NATS sub-option list. -/
def natsLastWins (subs : List NATSOption) : natsConfig :=
  ⟨(lastNATSURL subs).getD ""⟩
/-- The settings bundle as the spec describes it: every field holds the
value set by the last option (and, inside it, the last sub-option) that
sets it, the zero value if none does; enabled flags are set exactly by
the presence of the corresponding enable-X option. -/
def configLastWinsSpec (opts : List TeleOption) : config where
  ServiceName := ""
  Environment := ""
  MysqlConfig := mySQLLastWins ((lastMySQLOpts opts).getD [])
  MysqlEnabled := (lastMySQLOpts opts).isSome
  NatsConfig := natsLastWins ((lastNATSOpts opts).getD [])
  NatsEnabled := (lastNATSOpts opts).isSome
  SentryConfig := sentryLastWins ((lastSentryOpts opts).getD [])
  SentryEnabled := (lastSentryOpts opts).isSome
  SlogConfig := slogLastWins ((lastSlogOpts opts).getD [])
  SlogEnabled := (lastSlogOpts opts).isSome
  TraceConfig := traceLastWins ((lastTraceOpts opts).getD [])
  TraceEnabled := (lastTraceOpts opts).isSome
/-! Initializer, translated from the telemetry package's initTelemetry
and Init (the variadic-options variant that sets TelemetryConfig).
Network effects are oracles in InitDeps; attempted calls are recorded. -/
/-- One network call attempted by the initializer. -/
inductive NetCall where
  | natsConnect (url : String)
  | sentryInit (dsn : String)
  | otlpExporterNew (endpoint : String)
deriving DecidableEq
/-- Oracles for the external systems the initializer talks to: each
returns ok or the error message the underlying client produced. -/
structure InitDeps where
  natsConnect : String → Except String Unit
  sentryInit : String → Except String Unit
  otlpExporterNew : String → Except String Unit
/-- Settings bundle constructed by initTelemetry: fold the options over
the empty default, then write ServiceName and Environment; this value
is stored in the process-wide TelemetryConfig. -/
def buildConfig (serviceName environment : String) (opts : List TeleOption) : config :=
  { applyOptions opts with ServiceName := serviceName, Environment := environment }
/-- Tracing stage of initTelemetry: validate the exporter URL, then
build the OTLP exporter; on success a tracer provider exists (true). -/
def initTraceStage (cfg : config) (deps : InitDeps) (calls : List NetCall) :
    Except String Bool × List NetCall :=
  if cfg.TraceEnabled then
    if cfg.TraceConfig.ExporterURL = "" then
      (.error "OpenTelemetry Exporter URL is required but not set", calls)
    else
      match deps.otlpExporterNew cfg.TraceConfig.ExporterURL with
      | .error e => (.error e, calls ++ [.otlpExporterNew cfg.TraceConfig.ExporterURL])
      | .ok _ => (.ok true, calls ++ [.otlpExporterNew cfg.TraceConfig.ExporterURL])
  else
    (.ok false, calls)
/-- Sentry stage of initTelemetry: validate the DSN, then call
sentry.Init; its error is propagated unwrapped. -/
def initSentryStage (cfg : config) (deps : InitDeps) (calls : List NetCall) :
    Except String Bool × List NetCall :=
  if cfg.SentryEnabled then
    if cfg.SentryConfig.DSN = "" then
      (.error "sentry DSN is required but not set", calls)
    else
      match deps.sentryInit cfg.SentryConfig.DSN with
      | .error e => (.error e, calls ++ [.sentryInit cfg.SentryConfig.DSN])
      | .ok _ => initTraceStage cfg deps (calls ++ [.sentryInit cfg.SentryConfig.DSN])
  else
    initTraceStage cfg deps calls
/-- NATS stage of initTelemetry, the first stage: URL validation,
connection, heartbeat spawn; then the slog stage (no required field,
cannot fail), then Sentry, then tracing. -/
def initNatsStage (cfg : config) (deps : InitDeps) : Except String Bool × List NetCall :=
  if cfg.NatsEnabled then
    if cfg.NatsConfig.URL = "" then
      (.error "nats URL is required but not set", [])
    else
      match deps.natsConnect cfg.NatsConfig.URL with
      | .error e => (.error ("nats connection failed: " ++ e),
                     [.natsConnect cfg.NatsConfig.URL])
      | .ok _ => initSentryStage cfg deps [.natsConnect cfg.NatsConfig.URL]
  else
    initSentryStage cfg deps []
/-- initTelemetry: build the settings bundle, then run the stages in
the fixed order NATS, slog, Sentry, tracing; the first failure aborts.
Returns whether a tracer provider was created, and the attempted
network calls in order. -/
def initTelemetry (serviceName environment : String) (opts : List TeleOption)
    (deps : InitDeps) : Except String Bool × List NetCall :=
  initNatsStage (buildConfig serviceName environment opts) deps
/-- One cleanup action of the shutdown callback. -/
inductive ShutdownAction where
  | sentryFlush
  | tracerShutdown
deriving DecidableEq
/-- Init: applies the options, runs initTelemetry, and on success
returns the shutdown callback, modelled as the list of cleanup actions
the returned closure performs: flush then tracer-provider shutdown when
both Sentry and tracing are enabled, flush alone when only Sentry is,
and nothing otherwise. On error the callback is nil (Except.error). -/
def Init (serviceName environment : String) (opts : List TeleOption)
    (deps : InitDeps) : Except String (List ShutdownAction) × List NetCall :=
  match initTelemetry serviceName environment opts deps with
  | (.error e, calls) => (.error e, calls)
  | (.ok _, calls) =>
    if (applyOptions opts).TraceEnabled && (applyOptions opts).SentryEnabled then
      (.ok [.sentryFlush, .tracerShutdown], calls)
    else if (applyOptions opts).SentryEnabled then
      (.ok [.sentryFlush], calls)
    else
      (.ok [], calls)
/-! Error capture, translated from the telemetry package's CaptureError. -/
/-- The part of a Go context CaptureError consults: whether a Sentry
span is attached to it. -/
structure Ctx where
  hasSentrySpan : Bool
deriving DecidableEq
/-- One side effect CaptureError can perform. -/
inductive CaptureEffect where
  | sentryBreadcrumb (message : String)
  | sentryCaptureException (err : String)
  | sentrySpanSetInternalError
  | otelRecordError (err : String)
  | otelSetStatusError (err : String)
  | slogError (message err : String)
deriving DecidableEq
/-- CaptureError: nothing when err is nil (none); otherwise the Sentry
actions when SentryEnabled (breadcrumb, capture, and marking the Sentry
span from the context when present), then the OpenTelemetry span
actions when TraceEnabled, then the slog line when SlogEnabled.
Returns the list of performed effects, in order. -/
def CaptureError (cfg : config) (ctx : Ctx) (err : Option String)
    (message : String) : List CaptureEffect :=
  match err with
  | none => []
  | some e =>
    (if cfg.SentryEnabled then
      [.sentryBreadcrumb message, .sentryCaptureException e] ++
        (if ctx.hasSentrySpan then [.sentrySpanSetInternalError] else [])
     else []) ++
    (if cfg.TraceEnabled then [.otelRecordError e, .otelSetStatusError e] else []) ++
    (if cfg.SlogEnabled then [.slogError message e] else [])
/-! NATS publish wrappers, translated from the natshelper package's
Publish and PublishMsg (the version with the nil-header guard in
PublishMsg). Go maps can be nil; a nil header is modelled as none, and
writing into a nil map is the error case of injectHeader, as in Go
where it panics. -/
/-- A non-nil NATS header map. -/
abbrev Header := List (String × String)
/-- A NATS message; Header is none when the Go header map is nil. -/
structure Msg where
  Subject : String
  Data : String
  Header : Option Header
deriving DecidableEq
/-- Set a header key, replacing any existing entry for it. -/
def headerSet (h : Header) (k v : String) : Header :=
  (k, v) :: h.filter (fun kv => kv.1 ≠ k)
/-- Trace-context injection into a header carrier: writing into a nil
map is a runtime panic in Go, modelled as the error case; on a real map
it records the propagated trace context under the traceparent key. -/
def injectHeader (tc : String) (h : Option Header) : Except String Header :=
  match h with
  | none => .error "assignment to entry in nil map"
  | some m => .ok (headerSet m "traceparent" tc)
/-- One step performed by the publish wrappers. -/
inductive PublishEffect where
  | sentryBreadcrumb (subject : String)
  | spanStart (name : String)
  | publishMsg (msg : Msg)
  | spanEnd
deriving DecidableEq
/-- Publish: breadcrumb, start a publish span, build the message with a
fresh empty (non-nil) header, inject the trace context, publish. -/
def Publish (tc : String) (subj : String) (data : String) :
    Except String (List PublishEffect) :=
  match injectHeader tc (some []) with
  | .error e => .error e
  | .ok h =>
    .ok [.sentryBreadcrumb subj, .spanStart ("nats.publish." ++ subj),
         .publishMsg ⟨subj, data, some h⟩, .spanEnd]
/-- PublishMsg: breadcrumb, start a publish span, replace a nil header
with a fresh empty map, inject the trace context, publish. -/
def PublishMsg (tc : String) (msg : Msg) : Except String (List PublishEffect) :=
  let msg1 := if msg.Header = none then { msg with Header := some [] } else msg
  match injectHeader tc msg1.Header with
  | .error e => .error e
  | .ok h =>
    .ok [.sentryBreadcrumb msg.Subject, .spanStart ("nats.publish." ++ msg.Subject),
         .publishMsg { msg1 with Header := some h }, .spanEnd]
/-! Go string comparison. Go compares strings byte-lexicographically;
for the ASCII strings compared by the health endpoint this is the
code-point lexicographic order implemented here. -/
/-- Lexicographic comparison of character lists by code point. -/
def strLtB : List Char → List Char → Bool
  | [], [] => false
  | [], _ :: _ => true
  | _ :: _, [] => false
  | a :: as, b :: bs =>
    if a.toNat < b.toNat then true
    else if b.toNat < a.toNat then false
    else strLtB as bs
/-- Go's strict < on strings. -/
def goStringLt (s t : String) : Bool := strLtB s.data t.data
/-- Decimal digit character of the last decimal digit of k. -/
def digitCh (k : Nat) : Char := Char.ofNat (48 + k % 10)
/-- Two-digit zero-padded rendering of n < 100. -/
def pad2 (n : Nat) : List Char := [digitCh (n / 10), digitCh n]
/-- Four-digit zero-padded rendering of n < 10000. -/
def pad4 (n : Nat) : List Char :=
  [digitCh (n / 1000), digitCh (n / 100), digitCh (n / 10), digitCh n]
/-! Civil time. A wall-clock instant as it appears in an RFC3339
timestamp: Gregorian date, time of day, and a UTC offset in seconds.
This models the environment (Go's time package) for the health
endpoint's timestamps; the repository code itself never parses them. -/
/-- A wall-clock date-time with a UTC offset in seconds. -/
structure DateTime where
  year : Nat
  month : Nat
  day : Nat
  hour : Nat
  minute : Nat
  second : Nat
  offset : Int
deriving DecidableEq
/-- Gregorian leap-year rule. -/
def isLeap (y : Nat) : Bool := (y % 4 == 0 && y % 100 != 0) || y % 400 == 0
/-- Days in a month (months numbered 1..12; 0 elsewhere). -/
def daysInMonth (l : Bool) (m : Nat) : Nat :=
  match m with
  | 1 => 31
  | 2 => if l then 29 else 28
  | 3 => 31
  | 4 => 30
  | 5 => 31
  | 6 => 30
  | 7 => 31
  | 8 => 31
  | 9 => 30
  | 10 => 31
  | 11 => 30
  | 12 => 31
  | _ => 0
/-- Days in a year. -/
def daysInYear (y : Nat) : Nat := if isLeap y then 366 else 365
/-- Days from the start of year 0 to the start of year y. -/
def daysBeforeYear : Nat → Nat
  | 0 => 0
  | y + 1 => daysBeforeYear y + daysInYear y
/-- Days from the start of the year to the start of month m. -/
def daysBeforeMonth (l : Bool) : Nat → Nat
  | 0 => 0
  | m + 1 => daysBeforeMonth l m + daysInMonth l m
/-- Day index of a date-time, counted from year 0, day one being 0. -/
def dayNumber (dt : DateTime) : Nat :=
  daysBeforeYear dt.year + daysBeforeMonth (isLeap dt.year) dt.month + (dt.day - 1)
/-- Seconds from the epoch start of year 0 to the wall-clock reading,
ignoring the offset. -/
def timeKey (dt : DateTime) : Nat :=
  86400 * dayNumber dt + 3600 * dt.hour + 60 * dt.minute + dt.second
/-- Absolute instant of the date-time: wall-clock seconds minus the UTC
offset. Chronological order of instants is the order of this value. -/
def toAbs (dt : DateTime) : Int := (timeKey dt : Int) - dt.offset
/-- A well-formed date-time: a real Gregorian calendar date with a
four-digit year and in-range time fields. -/
def ValidDT (dt : DateTime) : Prop :=
  dt.year ≤ 9999 ∧ 1 ≤ dt.month ∧ dt.month ≤ 12 ∧ 1 ≤ dt.day ∧
    dt.day ≤ daysInMonth (isLeap dt.year) dt.month ∧
    dt.hour ≤ 23 ∧ dt.minute ≤ 59 ∧ dt.second ≤ 59
instance (dt : DateTime) : Decidable (ValidDT dt) := by
  unfold ValidDT
  infer_instance
/-- Wall-clock fields compared lexicographically, most significant
first; for two date-times carrying the same offset this is their
chronological order. -/
def fieldsLt (a b : DateTime) : Prop :=
  a.year < b.year ∨ (a.year = b.year ∧ (a.month < b.month ∨ (a.month = b.month ∧
    (a.day < b.day ∨ (a.day = b.day ∧ (a.hour < b.hour ∨ (a.hour = b.hour ∧
      (a.minute < b.minute ∨ (a.minute = b.minute ∧ a.second < b.second)))))))))
/-- Offset suffix of an RFC3339 timestamp: Z for UTC, else a signed
hh:mm offset. -/
def offsetChars (off : Int) : List Char :=
  if off = 0 then ['Z']
  else if 0 < off then
    '+' :: (pad2 (off.toNat / 3600) ++ ':' :: pad2 (off.toNat % 3600 / 60))
  else
    '-' :: (pad2 ((-off).toNat / 3600) ++ ':' :: pad2 ((-off).toNat % 3600 / 60))
/-- Characters of the RFC3339 rendering of a date-time, as Go's
time.Format with the RFC3339 layout produces it. -/
def rfc3339Chars (dt : DateTime) : List Char :=
  pad4 dt.year ++ '-' :: (pad2 dt.month ++ '-' :: (pad2 dt.day ++ 'T' ::
    (pad2 dt.hour ++ ':' :: (pad2 dt.minute ++ ':' ::
      (pad2 dt.second ++ offsetChars dt.offset)))))
/-- RFC3339 rendering of a date-time. -/
def rfc3339 (dt : DateTime) : String := String.mk (rfc3339Chars dt)
/-! Composite health-check endpoint of the telemetry package. -/
/-- Oracles for the endpoint's fresh probe connections. -/
structure HealthzDeps where
  mysqlCheck : String → Except String Unit
  natsCheck : String → Except String Unit
/-- An HTTP response: status code and body. -/
structure HttpResponse where
  status : Nat
  body : String
deriving DecidableEq
/-- One dependency probe attempted by the endpoint. -/
inductive Probe where
  | mysql (dsn : String)
  | nats (url : String)
deriving DecidableEq
/-- Fixed JSON-like success body of the health endpoint. -/
def healthyBody : String :=
  "\x7b\"status\": \"ok\", \"message\": \"Service is healthy\"\x7d"
/-- Staleness decision over the recorded liveness event, translated
from src/natshelper/healthz.go lines 59-75: empty means no event yet;
otherwise the stored string is compared with Go string < against the
RFC3339 rendering of now minus five minutes. -/
def healthzEventCheck (lastHealthCheckEvent nowMinusFiveStr : String) : HttpResponse :=
  if lastHealthCheckEvent = "" then
    ⟨503, "No health check event received yet"⟩
  else if goStringLt lastHealthCheckEvent nowMinusFiveStr then
    ⟨503, "Last health check event is older than 5 minutes"⟩
  else
    ⟨200, healthyBody⟩
/-- Message-bus stage of the endpoint: fresh probe of the configured
bus URL, then the liveness-event staleness decision. -/
def healthzNatsStage (cfg : config) (deps : HealthzDeps)
    (lastHealthCheckEvent nowMinusFiveStr : String) (probes : List Probe) :
    HttpResponse × List Probe :=
  if cfg.NatsEnabled then
    match deps.natsCheck cfg.NatsConfig.URL with
    | .error e =>
      (⟨500, "NATS connection failed: " ++ e⟩, probes ++ [.nats cfg.NatsConfig.URL])
    | .ok _ =>
      (healthzEventCheck lastHealthCheckEvent nowMinusFiveStr,
       probes ++ [.nats cfg.NatsConfig.URL])
  else
    (⟨200, healthyBody⟩, probes)
/-- Modelled from the spec: the telemetry package's
HealthzEndpointHandler, whose implementation is not among the given
sources (only its tests and callers are). Per spec section 4.6 it runs
the enabled checks sequentially against the process-wide settings:
database first (probe of the configured DSN, 500 on failure and stop),
then message bus (probe of the configured URL, 500 on failure and
stop, then the liveness staleness checks), else the fixed healthy 200.
The staleness comparison follows src/natshelper/healthz.go. The
process-wide LastHealthCheckEvent string and the rendering of now
minus five minutes are passed as inputs. -/
def HealthzEndpointHandler (cfg : config) (deps : HealthzDeps)
    (lastHealthCheckEvent nowMinusFiveStr : String) : HttpResponse × List Probe :=
  if cfg.MysqlEnabled then
    match deps.mysqlCheck cfg.MysqlConfig.DSN with
    | .error e =>
      (⟨500, "MySQL connection failed: " ++ e⟩, [.mysql cfg.MysqlConfig.DSN])
    | .ok _ =>
      healthzNatsStage cfg deps lastHealthCheckEvent nowMinusFiveStr
        [.mysql cfg.MysqlConfig.DSN]
  else
    healthzNatsStage cfg deps lastHealthCheckEvent nowMinusFiveStr []
theorem slog_foldl_lastWins (subs : List SlogOption) :
    subs.foldl applySlogOption slogConfig.zero = slogLastWins subs := by
  induction subs using List.reverseRecOn with
  | nil => rfl
  | append_singleton xs x ih =>
    cases x with
    | slogLogLevel l =>
      simp [List.foldl_append, applySlogOption, slogLastWins, lastLogLevel]
theorem sentry_foldl_lastWins (subs : List SentryOption) :
    subs.foldl applySentryOption sentryConfig.zero = sentryLastWins subs := by
  induction subs using List.reverseRecOn with
  | nil => rfl
  | append_singleton xs x ih =>
    cases x <;>
      simp_all [List.foldl_append, applySentryOption, sentryLastWins,
        lastSentryDSN, lastSentryEnvironment, lastSentryRelease]
theorem trace_foldl_lastWins (subs : List TraceOption) :
    subs.foldl applyTraceOption traceConfig.zero = traceLastWins subs := by
  induction subs using List.reverseRecOn with
  | nil => rfl
  | append_singleton xs x ih =>
    cases x with
    | traceExporterURL u =>
      simp [List.foldl_append, applyTraceOption, traceLastWins, lastExporterURL]
theorem mySQL_foldl_lastWins (subs : List MySQLOption) :
    subs.foldl applyMySQLOption mySQLConfig.zero = mySQLLastWins subs := by
  induction subs using List.reverseRecOn with
  | nil => rfl
  | append_singleton xs x ih =>
    cases x with
    | mySQLDSN d =>
      simp [List.foldl_append, applyMySQLOption, mySQLLastWins, lastMySQLDSN]
theorem nats_foldl_lastWins (subs : List NATSOption) :
    subs.foldl applyNATSOption natsConfig.zero = natsLastWins subs := by
  induction subs using List.reverseRecOn with
  | nil => rfl
  | append_singleton xs x ih =>
    cases x with
    | natsURL u =>
      simp [List.foldl_append, applyNATSOption, natsLastWins, lastNATSURL]
/-- C6: for every sequence of options (and sub-options) folded over the
empty default settings bundle, the resulting value of each field equals
the value set by the last applied option that sets that field, and
equals the zero value if no option in the sequence sets it. Stated as a
refinement: the fold of the option functions equals the last-wins
specification. -/
theorem applyOptions_eq_lastWinsSpec (opts : List TeleOption) :
    applyOptions opts = configLastWinsSpec opts := by
  induction opts using List.reverseRecOn with
  | nil => rfl
  | append_singleton xs x ih =>
    cases x <;>
      simp_all [applyOptions, List.foldl_append, applyOption, configLastWinsSpec,
        lastSlogOpts, lastSentryOpts, lastTraceOpts, lastMySQLOpts, lastNATSOpts,
        slog_foldl_lastWins, sentry_foldl_lastWins, trace_foldl_lastWins,
        mySQL_foldl_lastWins, nats_foldl_lastWins]
theorem charEq_of_toNat_eq {a b : Char} (h : a.toNat = b.toNat) : a = b :=
  Char.eq_of_val_eq (UInt32.ext h)
theorem strLtB_irrefl (l : List Char) : strLtB l l = false := by
  induction l with
  | nil => rfl
  | cons a as ih => simp [strLtB, ih]
theorem strLtB_append {xs ys : List Char} (zs ws : List Char)
    (h : xs.length = ys.length) :
    (strLtB (xs ++ zs) (ys ++ ws) = true ↔
      (strLtB xs ys = true ∨ (xs = ys ∧ strLtB zs ws = true))) := by
  induction xs generalizing ys with
  | nil =>
    cases ys with
    | nil => simp [strLtB]
    | cons b bs => simp at h
  | cons a as ih =>
    cases ys with
    | nil => simp at h
    | cons b bs =>
      simp only [List.length_cons, Nat.add_right_cancel_iff] at h
      simp only [List.cons_append, strLtB]
      by_cases hab : a.toNat < b.toNat
      · simp [hab]
      · by_cases hba : b.toNat < a.toNat
        · have hne : a ≠ b := fun he => by rw [he] at hba; omega
          simp [hab, hba, hne]
        · have he : a = b := charEq_of_toNat_eq (by omega)
          subst he
          simp only [hab, hba, if_false, List.cons.injEq, true_and]
          exact ih h
theorem strLtB_cons_same (c : Char) (zs ws : List Char) :
    strLtB (c :: zs) (c :: ws) = strLtB zs ws := by
  simp [strLtB]
theorem digitCh_toNat (k : Nat) : (digitCh k).toNat = 48 + k % 10 := by
  unfold digitCh
  have h : k % 10 < 10 := Nat.mod_lt _ (by omega)
  generalize k % 10 = r at *
  interval_cases r <;> decide
theorem digitCh_eq_iff {a b : Nat} : digitCh a = digitCh b ↔ a % 10 = b % 10 := by
  constructor
  · intro h
    have := congrArg Char.toNat h
    simpa [digitCh_toNat] using this
  · intro h
    unfold digitCh
    rw [h]
theorem pad2_length (n : Nat) : (pad2 n).length = 2 := rfl
theorem pad4_length (n : Nat) : (pad4 n).length = 4 := rfl
theorem pad2_lt_iff {n m : Nat} (hn : n < 100) (hm : m < 100) :
    (strLtB (pad2 n) (pad2 m) = true ↔ n < m) := by
  simp only [pad2, strLtB, digitCh_toNat]
  split_ifs <;> simp <;> omega
theorem pad2_eq_iff {n m : Nat} (hn : n < 100) (hm : m < 100) :
    (pad2 n = pad2 m ↔ n = m) := by
  simp only [pad2, List.cons.injEq, and_true, digitCh_eq_iff]
  omega
theorem pad4_lt_iff {n m : Nat} (hn : n < 10000) (hm : m < 10000) :
    (strLtB (pad4 n) (pad4 m) = true ↔ n < m) := by
  simp only [pad4, strLtB, digitCh_toNat]
  split_ifs <;> simp <;> omega
theorem pad4_eq_iff {n m : Nat} (hn : n < 10000) (hm : m < 10000) :
    (pad4 n = pad4 m ↔ n = m) := by
  simp only [pad4, List.cons.injEq, and_true, digitCh_eq_iff]
  omega
theorem daysInMonth_le (l : Bool) (m : Nat) : daysInMonth l m ≤ 31 := by
  unfold daysInMonth
  split <;> first | omega | (split <;> omega)
theorem daysBeforeMonth_day_bound :
    ∀ (l : Bool), ∀ m < 13, ∀ d < 32, 1 ≤ m → 1 ≤ d → d ≤ daysInMonth l m →
      daysBeforeMonth l m + (d - 1) < (if l then 366 else 365) := by
  decide
theorem daysBeforeMonth_succ (l : Bool) (m : Nat) :
    daysBeforeMonth l (m + 1) = daysBeforeMonth l m + daysInMonth l m := rfl
theorem daysBeforeMonth_le (l : Bool) {m m2 : Nat} (h : m ≤ m2) :
    daysBeforeMonth l m ≤ daysBeforeMonth l m2 := by
  induction m2 with
  | zero =>
    have hm : m = 0 := by omega
    rw [hm]
  | succ n ih =>
    by_cases he : m = n + 1
    · rw [he]
    · have h3 := ih (by omega)
      rw [daysBeforeMonth_succ]
      omega
theorem daysBeforeYear_succ (y : Nat) :
    daysBeforeYear (y + 1) = daysBeforeYear y + daysInYear y := rfl
theorem daysBeforeYear_le {y y2 : Nat} (h : y ≤ y2) :
    daysBeforeYear y ≤ daysBeforeYear y2 := by
  induction y2 with
  | zero =>
    have hy : y = 0 := by omega
    rw [hy]
  | succ n ih =>
    by_cases he : y = n + 1
    · rw [he]
    · have h3 := ih (by omega)
      rw [daysBeforeYear_succ]
      omega
theorem dayNumber_lt_of_dateLt {a b : DateTime} (ha : ValidDT a) (hb : ValidDT b)
    (h : a.year < b.year ∨ (a.year = b.year ∧ (a.month < b.month ∨
      (a.month = b.month ∧ a.day < b.day)))) :
    dayNumber a < dayNumber b := by
  obtain ⟨hay, ham1, ham2, had1, had2, -, -, -⟩ := ha
  obtain ⟨hby, hbm1, hbm2, hbd1, hbd2, -, -, -⟩ := hb
  have hdima := daysInMonth_le (isLeap a.year) a.month
  rcases h with hy | ⟨hy, hm | ⟨hm, hd⟩⟩
  · have h1 : daysBeforeMonth (isLeap a.year) a.month + (a.day - 1) <
        daysInYear a.year := by
      have := daysBeforeMonth_day_bound (isLeap a.year) a.month (by omega) a.day
        (by omega) ham1 had1 had2
      simpa [daysInYear] using this
    have h2 : daysBeforeYear a.year + daysInYear a.year ≤ daysBeforeYear b.year := by
      rw [← daysBeforeYear_succ]
      exact daysBeforeYear_le (by omega)
    unfold dayNumber
    omega
  · unfold dayNumber
    rw [hy] at had2 ⊢
    have hstep := daysBeforeMonth_succ (isLeap b.year) a.month
    have hle := daysBeforeMonth_le (isLeap b.year)
      (show a.month + 1 ≤ b.month by omega)
    omega
  · unfold dayNumber
    rw [hy, hm]
    omega
theorem timeKey_lt_iff_fieldsLt {a b : DateTime} (ha : ValidDT a) (hb : ValidDT b) :
    timeKey a < timeKey b ↔ fieldsLt a b := by
  have fwd : ∀ {x y : DateTime}, ValidDT x → ValidDT y → fieldsLt x y →
      timeKey x < timeKey y := by
    intro x y hx hy hxy
    have hx2 := hx
    have hy2 := hy
    obtain ⟨-, -, -, -, -, hxh, hxm, hxs⟩ := hx2
    obtain ⟨-, -, -, -, -, hyh, hym, hys⟩ := hy2
    rcases hxy with hY | ⟨hY, hM | ⟨hM, hD | ⟨hD, hrest⟩⟩⟩
    · have := dayNumber_lt_of_dateLt hx hy (Or.inl hY)
      unfold timeKey
      omega
    · have := dayNumber_lt_of_dateLt hx hy (Or.inr ⟨hY, Or.inl hM⟩)
      unfold timeKey
      omega
    · have := dayNumber_lt_of_dateLt hx hy (Or.inr ⟨hY, Or.inr ⟨hM, hD⟩⟩)
      unfold timeKey
      omega
    · have hdn : dayNumber x = dayNumber y := by
        unfold dayNumber
        rw [hY, hM, hD]
      unfold timeKey
      rw [hdn]
      omega
  constructor
  · intro hk
    have tri : fieldsLt a b ∨ (a.year = b.year ∧ a.month = b.month ∧ a.day = b.day ∧
        a.hour = b.hour ∧ a.minute = b.minute ∧ a.second = b.second) ∨
        fieldsLt b a := by
      unfold fieldsLt
      omega
    rcases tri with h | h | h
    · exact h
    · exfalso
      have : timeKey a = timeKey b := by
        unfold timeKey dayNumber
        rw [h.1, h.2.1, h.2.2.1, h.2.2.2.1, h.2.2.2.2.1, h.2.2.2.2.2]
      omega
    · exact absurd (fwd hb ha h) (by omega)
  · exact fwd ha hb
theorem goStringLt_rfc3339 (a b : DateTime) :
    goStringLt (rfc3339 a) (rfc3339 b) = strLtB (rfc3339Chars a) (rfc3339Chars b) := rfl
theorem rfc3339_ne_empty (dt : DateTime) : rfc3339 dt ≠ "" := by
  intro h
  have h2 := congrArg String.data h
  simp [rfc3339, rfc3339Chars, pad4] at h2
theorem strLt_rfc3339_iff_fieldsLt {a b : DateTime} (ha : ValidDT a) (hb : ValidDT b)
    (hoff : a.offset = b.offset) :
    (strLtB (rfc3339Chars a) (rfc3339Chars b) = true ↔ fieldsLt a b) := by
  obtain ⟨hay, ham1, ham2, had1, had2, hah, hami, has⟩ := ha
  obtain ⟨hby, hbm1, hbm2, hbd1, hbd2, hbh, hbmi, hbs⟩ := hb
  have hda := daysInMonth_le (isLeap a.year) a.month
  have hdb := daysInMonth_le (isLeap b.year) b.month
  have hy1 : a.year < 10000 := by omega
  have hy2 : b.year < 10000 := by omega
  have hm1 : a.month < 100 := by omega
  have hm2 : b.month < 100 := by omega
  have hd1 : a.day < 100 := by omega
  have hd2 : b.day < 100 := by omega
  have hh1 : a.hour < 100 := by omega
  have hh2 : b.hour < 100 := by omega
  have hmi1 : a.minute < 100 := by omega
  have hmi2 : b.minute < 100 := by omega
  have hs1 : a.second < 100 := by omega
  have hs2 : b.second < 100 := by omega
  unfold rfc3339Chars
  rw [hoff]
  simp only [strLtB_append, pad4_length, pad2_length, strLtB_cons_same,
    strLtB_irrefl, and_false, or_false]
  rw [pad4_lt_iff hy1 hy2, pad4_eq_iff hy1 hy2, pad2_lt_iff hm1 hm2,
    pad2_eq_iff hm1 hm2, pad2_lt_iff hd1 hd2, pad2_eq_iff hd1 hd2,
    pad2_lt_iff hh1 hh2, pad2_eq_iff hh1 hh2, pad2_lt_iff hmi1 hmi2,
    pad2_eq_iff hmi1 hmi2, pad2_lt_iff hs1 hs2]
  unfold fieldsLt
  tauto
/-- For two valid date-times carrying the same UTC offset, Go's string
order on their RFC3339 renderings coincides with chronological order. -/
theorem goStringLt_rfc3339_iff_toAbs {a b : DateTime} (ha : ValidDT a)
    (hb : ValidDT b) (hoff : a.offset = b.offset) :
    (goStringLt (rfc3339 a) (rfc3339 b) = true ↔ toAbs a < toAbs b) := by
  rw [goStringLt_rfc3339, strLt_rfc3339_iff_fieldsLt ha hb hoff,
    ← timeKey_lt_iff_fieldsLt ha hb]
  unfold toAbs
  rw [hoff]
  omega
/-! Claim theorems. -/
/-- C1: for every request, when no integration is enabled in the
process-wide settings (so no dependency check runs) or every enabled
check passes, the health endpoint responds 200 with the fixed
JSON-like body containing "status", "ok", and "Service is healthy";
with nothing enabled no dependency probe is attempted. -/
theorem healthz_all_pass_ok (cfg : config) (deps : HealthzDeps) (ev thr : String)
    (hmy : cfg.MysqlEnabled = false ∨ deps.mysqlCheck cfg.MysqlConfig.DSN = .ok ())
    (hna : cfg.NatsEnabled = false ∨
      (deps.natsCheck cfg.NatsConfig.URL = .ok () ∧ ev ≠ "" ∧
        goStringLt ev thr = false)) :
    (HealthzEndpointHandler cfg deps ev thr).1 = ⟨200, healthyBody⟩ ∧
      (cfg.MysqlEnabled = false → cfg.NatsEnabled = false →
        (HealthzEndpointHandler cfg deps ev thr).2 = []) := by
  unfold HealthzEndpointHandler healthzNatsStage healthzEventCheck
  by_cases hM : cfg.MysqlEnabled = true <;> by_cases hN : cfg.NatsEnabled = true
  · have h1 := Or.resolve_left hmy (by simp [hM])
    obtain ⟨h3, h4, h5⟩ := Or.resolve_left hna (by simp [hN])
    simp [hM, hN, h1, h3, h4, h5]
  · have h1 := Or.resolve_left hmy (by simp [hM])
    have hN2 : cfg.NatsEnabled = false := by
      simpa using hN
    simp [hM, hN2, h1]
  · have hM2 : cfg.MysqlEnabled = false := by
      simpa using hM
    obtain ⟨h3, h4, h5⟩ := Or.resolve_left hna (by simp [hN])
    simp [hM2, hN, h3, h4, h5]
  · have hM2 : cfg.MysqlEnabled = false := by
      simpa using hM
    have hN2 : cfg.NatsEnabled = false := by
      simpa using hN
    simp [hM2, hN2]
/-- Closed instance of healthz_all_pass_ok at the empty settings
bundle. -/
theorem healthz_all_pass_ok_witness :
    (HealthzEndpointHandler config.zero ⟨fun _ => .ok (), fun _ => .ok ()⟩ "" "").1 =
      ⟨200, healthyBody⟩ :=
  (healthz_all_pass_ok config.zero ⟨fun _ => .ok (), fun _ => .ok ()⟩ "" ""
    (Or.inl rfl) (Or.inl rfl)).1
/-- C4: with the database integration enabled and the probe of the
configured connection string failing, the health endpoint responds 500
with body "MySQL connection failed: <error>", having probed exactly
the configured connection string and not attempted the message-bus
check. -/
theorem healthz_mysql_fail (cfg : config) (deps : HealthzDeps) (ev thr e : String)
    (hen : cfg.MysqlEnabled = true)
    (hf : deps.mysqlCheck cfg.MysqlConfig.DSN = .error e) :
    HealthzEndpointHandler cfg deps ev thr =
      (⟨500, "MySQL connection failed: " ++ e⟩, [.mysql cfg.MysqlConfig.DSN]) := by
  unfold HealthzEndpointHandler
  simp [hen, hf]
/-- Closed instance of healthz_mysql_fail at a concrete unreachable
database. -/
theorem healthz_mysql_fail_witness :
    HealthzEndpointHandler
        { config.zero with MysqlEnabled := true, MysqlConfig := ⟨"u:p@tcp(h)/db"⟩ }
        ⟨fun _ => .error "dial refused", fun _ => .ok ()⟩ "" "" =
      (⟨500, "MySQL connection failed: " ++ "dial refused"⟩,
       [.mysql "u:p@tcp(h)/db"]) :=
  healthz_mysql_fail _ _ "" "" "dial refused" rfl rfl
/-- C7: for every settings bundle (any combination of enabled flags),
context, and message, CaptureError with a nil error returns without
panicking, performs no error-reporting, tracing, or logging action,
and changes no state. -/
theorem captureError_nil_noop (cfg : config) (ctx : Ctx) (message : String) :
    CaptureError cfg ctx none message = [] := rfl
/-- C8: both publish wrappers inject into a non-nil header map: Publish
builds its message with a fresh empty header, and PublishMsg replaces
an absent header with a fresh empty map before injecting, so injection
never writes to a nil map (no error case is ever taken), and the
message is then published with the injected header. -/
theorem publish_wrappers_nonnil_header (tc subj data : String) (msg : Msg) :
    Publish tc subj data =
      .ok [.sentryBreadcrumb subj, .spanStart ("nats.publish." ++ subj),
           .publishMsg ⟨subj, data, some (headerSet [] "traceparent" tc)⟩, .spanEnd] ∧
    PublishMsg tc msg =
      .ok [.sentryBreadcrumb msg.Subject, .spanStart ("nats.publish." ++ msg.Subject),
           .publishMsg ⟨msg.Subject, msg.Data,
             some (headerSet (msg.Header.getD []) "traceparent" tc)⟩, .spanEnd] := by
  constructor
  · rfl
  · cases hm : msg.Header with
    | none => simp [PublishMsg, injectHeader, hm]
    | some m => simp [PublishMsg, injectHeader, hm]
/-- C9: when the recorded liveness value is non-empty and both
connection checks pass, the endpoint decides staleness by lexicographic
string comparison, taking the 503 stale branch exactly when the stored
string is lexicographically below the RFC3339 rendering of now minus
five minutes, without parsing either timestamp; that order coincides
with chronological order when both renderings carry the same UTC
offset, and can disagree with it when they do not. -/
theorem healthz_staleness_lexicographic :
    (∀ (cfg : config) (deps : HealthzDeps) (ev thr : String),
      (cfg.MysqlEnabled = false ∨ deps.mysqlCheck cfg.MysqlConfig.DSN = .ok ()) →
      cfg.NatsEnabled = true →
      deps.natsCheck cfg.NatsConfig.URL = .ok () →
      ev ≠ "" →
      ((HealthzEndpointHandler cfg deps ev thr).1 =
          ⟨503, "Last health check event is older than 5 minutes"⟩ ↔
        goStringLt ev thr = true)) ∧
    (∀ a b : DateTime, ValidDT a → ValidDT b → a.offset = b.offset →
      (goStringLt (rfc3339 a) (rfc3339 b) = true ↔ toAbs a < toAbs b)) ∧
    (∃ a b : DateTime, a.offset ≠ b.offset ∧ toAbs a < toAbs b ∧
      goStringLt (rfc3339 a) (rfc3339 b) = false) := by
  refine ⟨?_, ?_, ?_⟩
  · intro cfg deps ev thr hmy hna hok hev
    unfold HealthzEndpointHandler healthzNatsStage healthzEventCheck
    rcases hmy with h1 | h1
    · simp [h1, hna, hok, hev, healthyBody]
    · by_cases hM : cfg.MysqlEnabled = true
      · simp [hM, h1, hna, hok, hev, healthyBody]
      · have hM2 : cfg.MysqlEnabled = false := by
          simpa using hM
        simp [hM2, hna, hok, hev, healthyBody]
  · intro a b ha hb hoff
    exact goStringLt_rfc3339_iff_toAbs ha hb hoff
  · refine ⟨⟨1, 10, 27, 2, 55, 0, 7200⟩, ⟨1, 10, 27, 2, 0, 0, 3600⟩, ?_, ?_, ?_⟩ <;>
      decide
/-- Closed instance of healthz_staleness_lexicographic: the stale
branch tracks the string comparison at a concrete input. -/
theorem healthz_staleness_lexicographic_witness :
    (HealthzEndpointHandler { config.zero with NatsEnabled := true, NatsConfig := ⟨"u"⟩ }
        ⟨fun _ => .ok (), fun _ => .ok ()⟩ "b" "c").1 =
        ⟨503, "Last health check event is older than 5 minutes"⟩ ↔
      goStringLt "b" "c" = true :=
  healthz_staleness_lexicographic.1
    { config.zero with NatsEnabled := true, NatsConfig := ⟨"u"⟩ }
    ⟨fun _ => .ok (), fun _ => .ok ()⟩ "b" "c" (Or.inl rfl) rfl rfl (by decide)
/-- C5 (amended): with the message-bus integration enabled, its
connection check succeeding, and the database check passing or
disabled: if no liveness event was ever recorded the endpoint responds
503 "No health check event received yet"; and when the recorded value
and the five-minute threshold are RFC3339 renderings carrying the same
UTC offset, a recorded instant chronologically older than five minutes
before now yields 503 "Last health check event is older than 5
minutes". -/
theorem healthz_liveness_503 (cfg : config) (deps : HealthzDeps)
    (hmy : cfg.MysqlEnabled = false ∨ deps.mysqlCheck cfg.MysqlConfig.DSN = .ok ())
    (hna : cfg.NatsEnabled = true)
    (hok : deps.natsCheck cfg.NatsConfig.URL = .ok ()) :
    (∀ thr : String,
      (HealthzEndpointHandler cfg deps "" thr).1 =
        ⟨503, "No health check event received yet"⟩) ∧
    (∀ (tEv tThr : DateTime) (tNow : Int), ValidDT tEv → ValidDT tThr →
      tEv.offset = tThr.offset →
      toAbs tThr = tNow - 300 →
      toAbs tEv < tNow - 300 →
      (HealthzEndpointHandler cfg deps (rfc3339 tEv) (rfc3339 tThr)).1 =
        ⟨503, "Last health check event is older than 5 minutes"⟩) := by
  constructor
  · intro thr
    unfold HealthzEndpointHandler healthzNatsStage healthzEventCheck
    rcases hmy with h1 | h1
    · simp [h1, hna, hok]
    · by_cases hM : cfg.MysqlEnabled = true
      · simp [hM, h1, hna, hok]
      · have hM2 : cfg.MysqlEnabled = false := by
          simpa using hM
        simp [hM2, hna, hok]
  · intro tEv tThr tNow hv1 hv2 hoff hthr hev
    have hlt : goStringLt (rfc3339 tEv) (rfc3339 tThr) = true := by
      rw [goStringLt_rfc3339_iff_toAbs hv1 hv2 hoff]
      omega
    have hne := rfc3339_ne_empty tEv
    unfold HealthzEndpointHandler healthzNatsStage healthzEventCheck
    rcases hmy with h1 | h1
    · simp [h1, hna, hok, hne, hlt]
    · by_cases hM : cfg.MysqlEnabled = true
      · simp [hM, h1, hna, hok, hne, hlt]
      · have hM2 : cfg.MysqlEnabled = false := by
          simpa using hM
        simp [hM2, hna, hok, hne, hlt]
/-- Closed instance of healthz_liveness_503: no event recorded, and a
same-offset stale event, both at concrete inputs. -/
theorem healthz_liveness_503_witness :
    ((HealthzEndpointHandler { config.zero with NatsEnabled := true, NatsConfig := ⟨"u"⟩ }
        ⟨fun _ => .ok (), fun _ => .ok ()⟩ "" "x").1 =
      ⟨503, "No health check event received yet"⟩) ∧
    ((HealthzEndpointHandler { config.zero with NatsEnabled := true, NatsConfig := ⟨"u"⟩ }
        ⟨fun _ => .ok (), fun _ => .ok ()⟩
        (rfc3339 ⟨1, 10, 27, 2, 0, 0, 0⟩) (rfc3339 ⟨1, 10, 27, 2, 10, 0, 0⟩)).1 =
      ⟨503, "Last health check event is older than 5 minutes"⟩) :=
  ⟨(healthz_liveness_503 { config.zero with NatsEnabled := true, NatsConfig := ⟨"u"⟩ }
      ⟨fun _ => .ok (), fun _ => .ok ()⟩ (Or.inl rfl) rfl rfl).1 "x",
   (healthz_liveness_503 { config.zero with NatsEnabled := true, NatsConfig := ⟨"u"⟩ }
      ⟨fun _ => .ok (), fun _ => .ok ()⟩ (Or.inl rfl) rfl rfl).2
     ⟨1, 10, 27, 2, 0, 0, 0⟩ ⟨1, 10, 27, 2, 10, 0, 0⟩
     (toAbs ⟨1, 10, 27, 2, 15, 0, 0⟩) (by decide) (by decide) (by decide)
     (by decide) (by decide)⟩
/-- C5 counterexample: bus enabled and reachable, the recorded
timestamp rendered at offset +02:00 chronologically more than five
minutes older than a now rendered at offset +01:00 (the threshold
rendering toAbs equals now minus 300 seconds), yet the endpoint
answers 200 healthy instead of 503. -/
theorem healthz_liveness_offset_counterexample :
    toAbs ⟨1, 10, 27, 2, 0, 0, 3600⟩ = toAbs ⟨1, 10, 27, 2, 5, 0, 3600⟩ - 300 ∧
    toAbs ⟨1, 10, 27, 2, 55, 0, 7200⟩ < toAbs ⟨1, 10, 27, 2, 5, 0, 3600⟩ - 300 ∧
    ValidDT ⟨1, 10, 27, 2, 55, 0, 7200⟩ ∧ ValidDT ⟨1, 10, 27, 2, 0, 0, 3600⟩ ∧
    (HealthzEndpointHandler { config.zero with NatsEnabled := true, NatsConfig := ⟨"u"⟩ }
        ⟨fun _ => .ok (), fun _ => .ok ()⟩
        (rfc3339 ⟨1, 10, 27, 2, 55, 0, 7200⟩) (rfc3339 ⟨1, 10, 27, 2, 0, 0, 3600⟩)).1 =
      ⟨200, healthyBody⟩ := by
  refine ⟨by decide, by decide, by decide, by decide, by decide⟩
theorem initSentryStage_missing (cfg : config) (deps : InitDeps) (calls : List NetCall)
    (hs : cfg.SentryEnabled = true) (hd : cfg.SentryConfig.DSN = "") :
    initSentryStage cfg deps calls =
      (.error "sentry DSN is required but not set", calls) := by
  unfold initSentryStage
  simp [hs, hd]
theorem initTraceStage_missing (cfg : config) (deps : InitDeps) (calls : List NetCall)
    (ht : cfg.TraceEnabled = true) (hu : cfg.TraceConfig.ExporterURL = "") :
    initTraceStage cfg deps calls =
      (.error "OpenTelemetry Exporter URL is required but not set", calls) := by
  unfold initTraceStage
  simp [ht, hu]
theorem initSentryStage_error_of_missing (cfg : config) (deps : InitDeps)
    (calls : List NetCall)
    (h : (cfg.SentryEnabled = true ∧ cfg.SentryConfig.DSN = "") ∨
      (cfg.TraceEnabled = true ∧ cfg.TraceConfig.ExporterURL = "")) :
    ∃ e, (initSentryStage cfg deps calls).1 = .error e := by
  by_cases hs : cfg.SentryEnabled = true
  · by_cases hd : cfg.SentryConfig.DSN = ""
    · exact ⟨_, by rw [initSentryStage_missing cfg deps calls hs hd]⟩
    · obtain ⟨ht, hu⟩ : cfg.TraceEnabled = true ∧ cfg.TraceConfig.ExporterURL = "" := by
        rcases h with ⟨-, h2⟩ | h2
        · exact absurd h2 hd
        · exact h2
      cases hc : deps.sentryInit cfg.SentryConfig.DSN with
      | error e => exact ⟨e, by unfold initSentryStage; simp [hs, hd, hc]⟩
      | ok u =>
        refine ⟨"OpenTelemetry Exporter URL is required but not set", ?_⟩
        unfold initSentryStage
        simp only [hs, hd, hc, if_true, if_false,
          initTraceStage_missing cfg deps _ ht hu]
  · obtain ⟨ht, hu⟩ : cfg.TraceEnabled = true ∧ cfg.TraceConfig.ExporterURL = "" := by
      rcases h with ⟨h1, -⟩ | h2
      · exact absurd h1 hs
      · exact h2
    have hs2 : cfg.SentryEnabled = false := by
      simpa using hs
    unfold initSentryStage
    rw [if_neg (by simp [hs2])]
    exact ⟨_, by rw [initTraceStage_missing cfg deps calls ht hu]⟩
theorem initNatsStage_error_of_missing (cfg : config) (deps : InitDeps)
    (h : (cfg.NatsEnabled = true ∧ cfg.NatsConfig.URL = "") ∨
      (cfg.SentryEnabled = true ∧ cfg.SentryConfig.DSN = "") ∨
      (cfg.TraceEnabled = true ∧ cfg.TraceConfig.ExporterURL = "")) :
    ∃ e, (initNatsStage cfg deps).1 = .error e := by
  by_cases hn : cfg.NatsEnabled = true
  · by_cases hu : cfg.NatsConfig.URL = ""
    · exact ⟨_, by unfold initNatsStage; rw [if_pos hn, if_pos hu]⟩
    · have h2 : (cfg.SentryEnabled = true ∧ cfg.SentryConfig.DSN = "") ∨
          (cfg.TraceEnabled = true ∧ cfg.TraceConfig.ExporterURL = "") := by
        rcases h with ⟨-, h3⟩ | h3 | h3
        · exact absurd h3 hu
        · exact Or.inl h3
        · exact Or.inr h3
      cases hc : deps.natsConnect cfg.NatsConfig.URL with
      | error e =>
        exact ⟨"nats connection failed: " ++ e, by unfold initNatsStage; simp [hn, hu, hc]⟩
      | ok u =>
        obtain ⟨e2, h4⟩ := initSentryStage_error_of_missing cfg deps
          [NetCall.natsConnect cfg.NatsConfig.URL] h2
        refine ⟨e2, ?_⟩
        unfold initNatsStage
        simp only [hn, hu, hc, if_true, if_false]
        exact h4
  · have h2 : (cfg.SentryEnabled = true ∧ cfg.SentryConfig.DSN = "") ∨
        (cfg.TraceEnabled = true ∧ cfg.TraceConfig.ExporterURL = "") := by
      rcases h with ⟨h3, -⟩ | h3 | h3
      · exact absurd h3 hn
      · exact Or.inl h3
      · exact Or.inr h3
    unfold initNatsStage
    rw [if_neg hn]
    exact initSentryStage_error_of_missing cfg deps _ h2
theorem initNatsStage_nats_missing (cfg : config) (deps : InitDeps)
    (hn : cfg.NatsEnabled = true) (hu : cfg.NatsConfig.URL = "") :
    initNatsStage cfg deps = (.error "nats URL is required but not set", []) := by
  unfold initNatsStage
  rw [if_pos hn, if_pos hu]
theorem initNatsStage_no_sentry_call (cfg : config) (deps : InitDeps)
    (hs : cfg.SentryEnabled = true) (hd : cfg.SentryConfig.DSN = "") (d : String) :
    NetCall.sentryInit d ∉ (initNatsStage cfg deps).2 := by
  unfold initNatsStage
  by_cases hn : cfg.NatsEnabled = true
  · by_cases hu : cfg.NatsConfig.URL = ""
    · simp [hn, hu]
    · cases hc : deps.natsConnect cfg.NatsConfig.URL with
      | error e => simp [hn, hu, hc]
      | ok u => simp [hn, hu, hc, initSentryStage_missing cfg deps _ hs hd]
  · have hn2 : cfg.NatsEnabled = false := by
      simpa using hn
    simp [hn2, initSentryStage_missing cfg deps _ hs hd]
theorem initSentryStage_no_otlp_call (cfg : config) (deps : InitDeps)
    (calls : List NetCall) (ht : cfg.TraceEnabled = true)
    (hu : cfg.TraceConfig.ExporterURL = "") (u2 : String)
    (hin : NetCall.otlpExporterNew u2 ∉ calls) :
    NetCall.otlpExporterNew u2 ∉ (initSentryStage cfg deps calls).2 := by
  unfold initSentryStage
  by_cases hs : cfg.SentryEnabled = true
  · by_cases hd : cfg.SentryConfig.DSN = ""
    · simp [hs, hd, hin]
    · cases hc : deps.sentryInit cfg.SentryConfig.DSN with
      | error e => simp [hs, hd, hc, hin]
      | ok u =>
        simp only [hs, if_true, if_neg hd, hc,
          initTraceStage_missing cfg deps _ ht hu]
        simp [hin]
  · have hs2 : cfg.SentryEnabled = false := by
      simpa using hs
    simp only [hs2, Bool.false_eq_true, if_false,
      initTraceStage_missing cfg deps _ ht hu]
    exact hin
theorem initNatsStage_no_otlp_call (cfg : config) (deps : InitDeps)
    (ht : cfg.TraceEnabled = true) (hu : cfg.TraceConfig.ExporterURL = "")
    (u2 : String) :
    NetCall.otlpExporterNew u2 ∉ (initNatsStage cfg deps).2 := by
  unfold initNatsStage
  by_cases hn : cfg.NatsEnabled = true
  · by_cases hur : cfg.NatsConfig.URL = ""
    · simp [hn, hur]
    · cases hc : deps.natsConnect cfg.NatsConfig.URL with
      | error e => simp [hn, hur, hc]
      | ok u =>
        have h5 := initSentryStage_no_otlp_call cfg deps
          [NetCall.natsConnect cfg.NatsConfig.URL] ht hu u2 (by simp)
        simp only [hn, hur, hc, if_true, if_false]
        exact h5
  · have h5 := initSentryStage_no_otlp_call cfg deps [] ht hu u2 (by simp)
    simp only [hn, if_false]
    exact h5
theorem initNatsStage_sentry_missing_named (cfg : config) (deps : InitDeps)
    (hs : cfg.SentryEnabled = true) (hd : cfg.SentryConfig.DSN = "")
    (hpass : cfg.NatsEnabled = true →
      cfg.NatsConfig.URL ≠ "" ∧ deps.natsConnect cfg.NatsConfig.URL = .ok ()) :
    (initNatsStage cfg deps).1 = .error "sentry DSN is required but not set" := by
  unfold initNatsStage
  by_cases hn : cfg.NatsEnabled = true
  · obtain ⟨hu, hc⟩ := hpass hn
    simp [hn, hu, hc, initSentryStage_missing cfg deps _ hs hd]
  · simp [hn, initSentryStage_missing cfg deps _ hs hd]
theorem initSentryStage_pass (cfg : config) (deps : InitDeps) (calls : List NetCall)
    (hpass : cfg.SentryEnabled = true →
      cfg.SentryConfig.DSN ≠ "" ∧ deps.sentryInit cfg.SentryConfig.DSN = .ok ()) :
    ∃ calls2, initSentryStage cfg deps calls = initTraceStage cfg deps calls2 := by
  unfold initSentryStage
  by_cases hs : cfg.SentryEnabled = true
  · obtain ⟨hd, hc⟩ := hpass hs
    rw [if_pos hs, if_neg hd, hc]
    exact ⟨_, rfl⟩
  · rw [if_neg hs]
    exact ⟨calls, rfl⟩
theorem initNatsStage_trace_missing_named (cfg : config) (deps : InitDeps)
    (ht : cfg.TraceEnabled = true) (hu : cfg.TraceConfig.ExporterURL = "")
    (hpassN : cfg.NatsEnabled = true →
      cfg.NatsConfig.URL ≠ "" ∧ deps.natsConnect cfg.NatsConfig.URL = .ok ())
    (hpassS : cfg.SentryEnabled = true →
      cfg.SentryConfig.DSN ≠ "" ∧ deps.sentryInit cfg.SentryConfig.DSN = .ok ()) :
    (initNatsStage cfg deps).1 =
      .error "OpenTelemetry Exporter URL is required but not set" := by
  unfold initNatsStage
  by_cases hn : cfg.NatsEnabled = true
  · obtain ⟨hur, hc⟩ := hpassN hn
    obtain ⟨calls2, h2⟩ := initSentryStage_pass cfg deps
      [NetCall.natsConnect cfg.NatsConfig.URL] hpassS
    simp [hn, hur, hc, h2, initTraceStage_missing cfg deps _ ht hu]
  · obtain ⟨calls2, h2⟩ := initSentryStage_pass cfg deps [] hpassS
    simp [hn, h2, initTraceStage_missing cfg deps _ ht hu]
theorem init_fst_error (sn env : String) (opts : List TeleOption) (deps : InitDeps)
    (e : String) (h : (initTelemetry sn env opts deps).1 = .error e) :
    (Init sn env opts deps).1 = .error e := by
  unfold Init
  rcases hr : initTelemetry sn env opts deps with ⟨res, cs⟩
  rw [hr] at h
  cases res with
  | error e2 =>
    simp only at h
    rw [h]
  | ok b => simp at h
theorem init_snd_calls (sn env : String) (opts : List TeleOption) (deps : InitDeps) :
    (Init sn env opts deps).2 = (initTelemetry sn env opts deps).2 := by
  unfold Init
  rcases hr : initTelemetry sn env opts deps with ⟨res, cs⟩
  cases res with
  | error e2 => simp
  | ok b => split_ifs <;> simp
/-- C2 (amended): if some enabled integration among message bus, error
reporting, and tracing is missing its required configuration field,
Init returns a non-nil error and a nil shutdown callback and attempts
no network call for any integration whose required field is missing;
the error names the missing field of the first such integration in the
fixed order (bus, then error reporting, then tracing) when the enabled
integrations before it connect successfully. A missing database DSN is
not validated by Init and causes no error. -/
theorem init_missing_required_field (sn env : String) (opts : List TeleOption)
    (deps : InitDeps) :
    (((buildConfig sn env opts).NatsEnabled = true ∧
        (buildConfig sn env opts).NatsConfig.URL = "") ∨
     ((buildConfig sn env opts).SentryEnabled = true ∧
        (buildConfig sn env opts).SentryConfig.DSN = "") ∨
     ((buildConfig sn env opts).TraceEnabled = true ∧
        (buildConfig sn env opts).TraceConfig.ExporterURL = "") →
      ∃ e, (Init sn env opts deps).1 = Except.error e) ∧
    ((buildConfig sn env opts).NatsEnabled = true →
      (buildConfig sn env opts).NatsConfig.URL = "" →
      Init sn env opts deps = (Except.error "nats URL is required but not set", [])) ∧
    ((buildConfig sn env opts).SentryEnabled = true →
      (buildConfig sn env opts).SentryConfig.DSN = "" →
      ∀ d, NetCall.sentryInit d ∉ (Init sn env opts deps).2) ∧
    ((buildConfig sn env opts).TraceEnabled = true →
      (buildConfig sn env opts).TraceConfig.ExporterURL = "" →
      ∀ u, NetCall.otlpExporterNew u ∉ (Init sn env opts deps).2) ∧
    ((buildConfig sn env opts).SentryEnabled = true →
      (buildConfig sn env opts).SentryConfig.DSN = "" →
      ((buildConfig sn env opts).NatsEnabled = true →
        (buildConfig sn env opts).NatsConfig.URL ≠ "" ∧
          deps.natsConnect (buildConfig sn env opts).NatsConfig.URL = .ok ()) →
      (Init sn env opts deps).1 = Except.error "sentry DSN is required but not set") ∧
    ((buildConfig sn env opts).TraceEnabled = true →
      (buildConfig sn env opts).TraceConfig.ExporterURL = "" →
      ((buildConfig sn env opts).NatsEnabled = true →
        (buildConfig sn env opts).NatsConfig.URL ≠ "" ∧
          deps.natsConnect (buildConfig sn env opts).NatsConfig.URL = .ok ()) →
      ((buildConfig sn env opts).SentryEnabled = true →
        (buildConfig sn env opts).SentryConfig.DSN ≠ "" ∧
          deps.sentryInit (buildConfig sn env opts).SentryConfig.DSN = .ok ()) →
      (Init sn env opts deps).1 =
        Except.error "OpenTelemetry Exporter URL is required but not set") := by
  refine ⟨?_, ?_, ?_, ?_, ?_, ?_⟩
  · intro h
    obtain ⟨e, he⟩ := initNatsStage_error_of_missing (buildConfig sn env opts) deps h
    exact ⟨e, init_fst_error sn env opts deps e he⟩
  · intro hn hu
    have h2 := initNatsStage_nats_missing (buildConfig sn env opts) deps hn hu
    have e1 : (Init sn env opts deps).1 = Except.error "nats URL is required but not set" :=
      init_fst_error sn env opts deps _ (congrArg Prod.fst h2)
    have e2 : (Init sn env opts deps).2 = [] := by
      rw [init_snd_calls]
      exact congrArg Prod.snd h2
    exact Prod.ext_iff.mpr ⟨e1, e2⟩
  · intro hs hd d
    rw [init_snd_calls]
    exact initNatsStage_no_sentry_call (buildConfig sn env opts) deps hs hd d
  · intro ht hu u
    rw [init_snd_calls]
    exact initNatsStage_no_otlp_call (buildConfig sn env opts) deps ht hu u
  · intro hs hd hpass
    exact init_fst_error sn env opts deps _
      (initNatsStage_sentry_missing_named (buildConfig sn env opts) deps hs hd hpass)
  · intro ht hu hpassN hpassS
    exact init_fst_error sn env opts deps _
      (initNatsStage_trace_missing_named (buildConfig sn env opts) deps ht hu hpassN hpassS)
/-- Closed instance of init_missing_required_field at concrete option
lists with each required field missing. -/
theorem init_missing_required_field_witness :
    (∃ e, (Init "s" "e" [TeleOption.withSentry []]
        ⟨fun _ => .ok (), fun _ => .ok (), fun _ => .ok ()⟩).1 = Except.error e) ∧
    Init "s" "e" [TeleOption.withNATS []]
        ⟨fun _ => .ok (), fun _ => .ok (), fun _ => .ok ()⟩ =
      (Except.error "nats URL is required but not set", []) ∧
    (Init "s" "e" [TeleOption.withTrace []]
        ⟨fun _ => .ok (), fun _ => .ok (), fun _ => .ok ()⟩).1 =
      Except.error "OpenTelemetry Exporter URL is required but not set" :=
  ⟨(init_missing_required_field "s" "e" [TeleOption.withSentry []]
      ⟨fun _ => .ok (), fun _ => .ok (), fun _ => .ok ()⟩).1
      (Or.inr (Or.inl ⟨rfl, rfl⟩)),
   (init_missing_required_field "s" "e" [TeleOption.withNATS []]
      ⟨fun _ => .ok (), fun _ => .ok (), fun _ => .ok ()⟩).2.1 rfl rfl,
   (init_missing_required_field "s" "e" [TeleOption.withTrace []]
      ⟨fun _ => .ok (), fun _ => .ok (), fun _ => .ok ()⟩).2.2.2.2.2 rfl rfl
      (fun h => absurd h (by decide)) (fun h => absurd h (by decide))⟩
/-- C2 counterexample: the database integration enabled with its DSN
missing is accepted by Init: no error, a non-nil (empty) shutdown
callback, and no network calls, refuting the claim that a missing
database DSN makes Init return an error. -/
theorem init_mysql_missing_dsn_no_error :
    (buildConfig "s" "e" [TeleOption.withMySQL []]).MysqlEnabled = true ∧
    (buildConfig "s" "e" [TeleOption.withMySQL []]).MysqlConfig.DSN = "" ∧
    Init "s" "e" [TeleOption.withMySQL []]
      ⟨fun _ => .ok (), fun _ => .ok (), fun _ => .ok ()⟩ = (Except.ok [], []) :=
  ⟨rfl, rfl, rfl⟩
/-- C3 (amended): on success the shutdown callback flushes the
error-reporting queue and shuts down the tracer provider when both
error reporting and tracing are enabled, only flushes when error
reporting alone is enabled, and performs no action otherwise — in
particular, with tracing enabled and error reporting disabled it does
not shut down the tracer provider; integrations with no cleanup
contribute no action. -/
theorem init_shutdown_actions (sn env : String) (opts : List TeleOption)
    (deps : InitDeps) (sd : List ShutdownAction) (calls : List NetCall)
    (h : Init sn env opts deps = (Except.ok sd, calls)) :
    sd = (if (applyOptions opts).TraceEnabled && (applyOptions opts).SentryEnabled then
            [ShutdownAction.sentryFlush, ShutdownAction.tracerShutdown]
          else if (applyOptions opts).SentryEnabled then [ShutdownAction.sentryFlush]
          else []) := by
  unfold Init at h
  rcases hr : initTelemetry sn env opts deps with ⟨res, cs⟩
  rw [hr] at h
  cases res with
  | error e => simp at h
  | ok b =>
    simp only at h
    split_ifs at h with h1 h2 <;> simp_all
/-- Closed instance of init_shutdown_actions at a successful
Sentry-only initialization. -/
theorem init_shutdown_actions_witness :
    [ShutdownAction.sentryFlush] =
      (if (applyOptions [TeleOption.withSentry [.sentryDSN "d"]]).TraceEnabled &&
          (applyOptions [TeleOption.withSentry [.sentryDSN "d"]]).SentryEnabled then
        [ShutdownAction.sentryFlush, ShutdownAction.tracerShutdown]
      else if (applyOptions [TeleOption.withSentry [.sentryDSN "d"]]).SentryEnabled then
        [ShutdownAction.sentryFlush]
      else []) :=
  init_shutdown_actions "s" "e" [TeleOption.withSentry [.sentryDSN "d"]]
    ⟨fun _ => .ok (), fun _ => .ok (), fun _ => .ok ()⟩
    [ShutdownAction.sentryFlush] [NetCall.sentryInit "d"] rfl
/-- C3 counterexample: with tracing enabled alone (exporter URL set,
exporter construction succeeding) Init succeeds, yet the returned
shutdown callback performs no action at all — the tracer provider is
never shut down. -/
theorem init_trace_only_shutdown_empty :
    (applyOptions [TeleOption.withTrace [.traceExporterURL "u"]]).TraceEnabled = true ∧
    (applyOptions [TeleOption.withTrace [.traceExporterURL "u"]]).SentryEnabled = false ∧
    Init "s" "e" [TeleOption.withTrace [.traceExporterURL "u"]]
      ⟨fun _ => .ok (), fun _ => .ok (), fun _ => .ok ()⟩ =
      (Except.ok [], [NetCall.otlpExporterNew "u"]) :=
  ⟨rfl, rfl, rfl⟩
end GoTooling
